import Mathlib

/-!
Shallow embedding of `src/myHWPY/bookstore_manager.py` (a single-file SQLite
bookstore ledger) and proofs about its four store operations.

Modelling conventions:
* The SQLite database is a `Store`: three lists of rows (`member`, `book`,
  `sale`) plus the `AUTOINCREMENT` counter for `sale.sid`.  SQLite `INTEGER`
  columns are `Int`; `TEXT` columns are `String`; the nullable `memail`
  column is `Option String`.
* Each Python function that touches the database becomes a Lean function
  from a `Store` (plus its inputs) to its printed/returned message and the
  resulting `Store`.  A `sqlite3.Error` raised by a write is modelled by an
  explicit Boolean failure flag per write statement; when a flagged write
  fails, control reaches the `except` branch of the source, which calls
  `conn.rollback()` — modelled as returning the original store unchanged.
* An uncaught Python exception (a code path the source does not guard, e.g.
  subscripting a `None` row) is modelled by the result `none`.
* Python library behaviour used by the source (`str.strip`, `int(...)`,
  `re.fullmatch(r"\d{4}-\d{2}-\d{2}", s)`, the `{x:,}` thousands format)
  is re-implemented over character lists so that every definition is
  executable by the kernel.  `\d` and whitespace are modelled as their
  ASCII meaning.
-/

namespace Bookstore

/-- Row of the `member` table: `member(mid PK, mname, mphone, memail)`. -/
structure Member where
  mid : String
  mname : String
  mphone : String
  memail : Option String
deriving DecidableEq

/-- Row of the `book` table: `book(bid PK, btitle, bprice, bstock)`. -/
structure Book where
  bid : String
  btitle : String
  bprice : Int
  bstock : Int
deriving DecidableEq

/-- Row of the `sale` table:
`sale(sid PK autoincrement, sdate, mid, bid, sqty, sdiscount, stotal)`. -/
structure Sale where
  sid : Nat
  sdate : String
  mid : String
  bid : String
  sqty : Int
  sdiscount : Int
  stotal : Int
deriving DecidableEq

/-- The whole database: the three tables plus the autoincrement counter
that produces the next `sale.sid`. -/
structure Store where
  members : List Member
  books : List Book
  sales : List Sale
  nextSid : Nat
deriving DecidableEq

/-- Seed data inserted by `initialize_db` into an empty database: three
members, three books, five sales (sids 1..5, so the next sid is 6). -/
def initialize_db : Store :=
  { members :=
      [ ⟨"M001", "Alice", "0912-345678", some ("alice@example.com")⟩,
        ⟨"M002", "Bob", "0923-456789", some ("bob@example.com")⟩,
        ⟨"M003", "Cathy", "0934-567890", some ("cathy@example.com")⟩ ],
    books :=
      [ ⟨"B001", "Python Programming", 600, 50⟩,
        ⟨"B002", "Data Science Basics", 800, 30⟩,
        ⟨"B003", "Machine Learning Guide", 1200, 20⟩ ],
    sales :=
      [ ⟨1, "2024-01-15", "M001", "B001", 2, 100, 1100⟩,
        ⟨2, "2024-01-16", "M002", "B002", 1, 50, 750⟩,
        ⟨3, "2024-01-17", "M001", "B003", 1, 0, 1200⟩,
        ⟨4, "2024-01-18", "M003", "B001", 1, 0, 600⟩,
        ⟨5, "2024-01-19", "M002", "B003", 2, 150, 2250⟩ ],
    nextSid := 6 }

/-- Thousands grouping of a digit list given least-significant first, as in
Python's `{x:,}` format: a comma after every third digit. -/
def commaRev : List Char → List Char
  | a :: b :: c :: d :: rest => a :: b :: c :: ',' :: commaRev (d :: rest)
  | l => l

/-- Python's `{x:,}` thousands-separator format for an integer. -/
def formatComma (n : Int) : String :=
  (if n < 0 then "-" else "") ++
    String.mk ((commaRev (toString n.natAbs).data.reverse).reverse)

/-- Python's `str.strip()`: drop whitespace from both ends. -/
def py_strip (s : String) : String :=
  String.mk (((s.data.dropWhile Char.isWhitespace).reverse.dropWhile
    Char.isWhitespace).reverse)

/-- Value of a nonempty all-digit character list, else `none`. -/
def py_digits? (cs : List Char) : Option Nat :=
  if cs ≠ [] ∧ cs.all Char.isDigit then
    some (cs.foldl (fun a c => a * 10 + (c.toNat - 48)) 0)
  else none

/-- Python's `int(s)` on an already-stripped string: optional sign followed
by digits, else a `ValueError` (`none`). -/
def py_int? (s : String) : Option Int :=
  match s.data with
  | '-' :: ds => (py_digits? ds).map (fun n => -(n : Int))
  | '+' :: ds => (py_digits? ds).map (fun n => (n : Int))
  | ds => (py_digits? ds).map (fun n => (n : Int))

/-- Source `is_valid_date`: `re.fullmatch(r"\d{4}-\d{2}-\d{2}", date_str)`. -/
def is_valid_date (date_str : String) : Bool :=
  match date_str.data with
  | [a, b, c, d, '-', e, f, '-', g, h] =>
    a.isDigit && b.isDigit && c.isDigit && d.isDigit &&
      e.isDigit && f.isDigit && g.isDigit && h.isDigit
  | _ => false

/-- Exit condition of the `get_valid_positive_integer_input` loop: it
returns `v` exactly when `v is None or v > 0`. -/
def positive_input_ok : Option Int → Bool
  | none => true
  | some n => decide (0 < n)

/-- Exit condition of the `get_valid_non_negative_integer_input` loop: it
returns `v` exactly when `v is None or v >= 0`. -/
def non_negative_input_ok : Option Int → Bool
  | none => true
  | some n => decide (0 ≤ n)

/-- Message `"錯誤：會員編號或書籍編號無效"` returned by `add_sale` when the
member or book lookup fails. -/
def notFoundMsg : String := "錯誤：會員編號或書籍編號無效"

/-- Message returned by `add_sale` when stock is short; the f-string embeds
the remaining stock `b['bstock']` verbatim. -/
def insufficientStockMsg (remaining : Int) : String :=
  "錯誤：書籍庫存不足 (剩餘 " ++ toString remaining ++ ")"

/-- Message returned by `add_sale` from its `except sqlite3.Error` branch. -/
def dbErrorMsg : String := "=> 發生資料庫操作錯誤"

/-- Success message of `add_sale`; the total is formatted with `{total:,}`. -/
def addSaleOkMsg (total : Int) : String :=
  "銷售記錄已新增！(銷售總額: " ++ formatComma total ++ ")"

/-- Message printed by `add_new_sale` when the date fails `is_valid_date`. -/
def dateErrorMsg : String := "=> 錯誤：日期格式錯誤"

/-- Message printed by `get_valid_integer_input` on a non-integer entry. -/
def invalidIntegerMsg : String := "=> 錯誤：請輸入有效的整數"

/-- Message printed by `update_sale_record` / `delete_sale_record` when the
typed list choice is non-numeric or out of range. -/
def invalidNumberMsg : String := "=> 錯誤：請輸入有效的數字"

/-- Message printed by `update_sale_record` when no sales are listable. -/
def noSalesUpdateMsg : String := "=> 沒有任何銷售紀錄可供更新。"

/-- Message printed by `delete_sale_record` when no sales are listable. -/
def noSalesDeleteMsg : String := "=> 沒有任何銷售紀錄可供刪除。"

/-- Message printed by `update_sale_record` from its `except` branch. -/
def updateFailedMsg : String := "=> 更新失敗，請稍後再試。"

/-- Message printed by `delete_sale_record` from its `except` branch. -/
def deleteFailedMsg : String := "=> 刪除失敗，請稍後再試。"

/-- Success message of `update_sale_record` (`{new_total:,}` format). -/
def updatedMsg (sid : Nat) (new_total : Int) : String :=
  "=> 銷售編號 " ++ toString sid ++ " 已更新！(銷售總額: " ++
    formatComma new_total ++ ")"

/-- Success message of `delete_sale_record`. -/
def deletedMsg (sid : Nat) : String :=
  "=> 銷售編號 " ++ toString sid ++ " 已刪除"

/-- Source `add_sale(conn, sdate, mid, bid, sqty, sdiscount)`.

Looks up the member (`SELECT 1 FROM member WHERE mid=?`) and the book
(`SELECT bprice,bstock FROM book WHERE bid=?`); if either is missing it
returns the not-found error.  If `bstock < sqty` it returns the
insufficient-stock error with the remaining stock in the message.
Otherwise it computes `total = bprice*sqty - sdiscount`, inserts the sale
row (`sid` from the autoincrement counter), decrements the stock of every
`book` row matching `bid` (`UPDATE book SET bstock=bstock-? WHERE bid=?`),
and commits.  `insertFails` / `updateFails` model `sqlite3.Error` raised by
the respective write; either sends control to the `except` branch, which
rolls the transaction back, leaving the store unchanged. -/
def add_sale (st : Store) (sdate mid bid : String) (sqty sdiscount : Int)
    (insertFails updateFails : Bool) : (Bool × String) × Store :=
  match st.members.find? (fun m => m.mid = mid),
      st.books.find? (fun b => b.bid = bid) with
  | some _, some b =>
    if b.bstock < sqty then ((false, insufficientStockMsg b.bstock), st)
    else if insertFails then ((false, dbErrorMsg), st)
    else if updateFails then ((false, dbErrorMsg), st)
    else
      ((true, addSaleOkMsg (b.bprice * sqty - sdiscount)),
       { st with
          books := st.books.map (fun bk =>
            if bk.bid = bid then { bk with bstock := bk.bstock - sqty }
            else bk),
          sales := st.sales ++
            [⟨st.nextSid, sdate, mid, bid, sqty, sdiscount,
              b.bprice * sqty - sdiscount⟩],
          nextSid := st.nextSid + 1 })
  | _, _ => ((false, notFoundMsg), st)

/-- Source `add_new_sale(conn)`: rejects a date failing `is_valid_date`,
reads the member and book ids, then the quantity and discount through the
validating input loops (`none` models an empty entry, which aborts
silently), and finally calls `add_sale` and prints `=> ` plus its message. -/
def add_new_sale (st : Store) (sdate mid bid : String)
    (sqty sdiscount : Option Int) (insertFails updateFails : Bool) :
    Option String × Store :=
  if is_valid_date sdate = false then (some dateErrorMsg, st)
  else
    match sqty with
    | none => (none, st)
    | some q =>
      match sdiscount with
      | none => (none, st)
      | some d =>
        ((some ("=> " ++ (add_sale st sdate mid bid q d insertFails
            updateFails).1.2)),
         (add_sale st sdate mid bid q d insertFails updateFails).2)

/-- Row of the listing shown by `update_sale_record` / `delete_sale_record`:
`SELECT s.sid, m.mname, s.sdate FROM sale s JOIN member m ON s.mid=m.mid`. -/
structure ListedSale where
  sid : Nat
  mname : String
  sdate : String
deriving DecidableEq

/-- The `sale JOIN member` listing, `ORDER BY s.sid` (the primary key makes
the inner join match at most one member per sale). -/
def listed_sales (st : Store) : List ListedSale :=
  (st.sales.filterMap (fun s =>
    (st.members.find? (fun m => m.mid = s.mid)).map (fun m =>
      ⟨s.sid, m.mname, s.sdate⟩))).mergeSort (fun a b => a.sid ≤ b.sid)

/-- Outcome of the shared choose-from-list prompt in `update_sale_record`
and `delete_sale_record` (lines 210-220 and 254-264 of the source are the
same code): empty input cancels, a non-integer or out-of-range number is
invalid, otherwise the 1-based index selects a listed row. -/
inductive Choice where
  | cancel
  | invalid
  | chosen (r : ListedSale)
deriving DecidableEq

/-- The choose-from-list prompt: `choice = input(...).strip()`; empty →
return; `int(choice)` failing or out of `1..len(sales)` → error message;
else `sales[idx-1]`. -/
def resolve_choice (sales : List ListedSale) (choice : String) : Choice :=
  if py_strip choice = ("") then Choice.cancel
  else
    match py_int? (py_strip choice) with
    | none => Choice.invalid
    | some idx =>
      if idx < 1 then Choice.invalid
      else if h : idx.toNat - 1 < sales.length then
        Choice.chosen (sales.get ⟨idx.toNat - 1, h⟩)
      else Choice.invalid

/-- Source `update_sale_record(conn)`.

Lists the sales (`sale JOIN member`); with no rows it reports and returns.
A list choice is resolved as in `resolve_choice`.  The chosen row's sid is
re-fetched (`SELECT * FROM sale WHERE sid=?`), then the new discount is
read (`none` aborts silently).  The book's current price is fetched with
`cur.fetchone()['bprice']` — unguarded, so a sale row or book row missing
at that point subscripts `None` and crashes (result `none`; the sale row
itself always exists because the sid came from the listing).  The new
total is `bprice * sqty - new_discount` with the sale's original quantity;
`UPDATE sale SET sdiscount=?, stotal=? WHERE sid=?` runs in a transaction
(`updateFails` models `sqlite3.Error`: the `except` branch rolls back). -/
def update_sale_record (st : Store) (choice : String)
    (new_discount : Option Int) (updateFails : Bool) :
    Option (Option String × Store) :=
  if (listed_sales st).isEmpty then some (some noSalesUpdateMsg, st)
  else
    match resolve_choice (listed_sales st) choice with
    | Choice.cancel => some (none, st)
    | Choice.invalid => some (some invalidNumberMsg, st)
    | Choice.chosen r =>
      match new_discount with
      | none => some (none, st)
      | some d =>
        match st.sales.find? (fun s => s.sid = r.sid) with
        | none => none
        | some sale =>
          match st.books.find? (fun b => b.bid = sale.bid) with
          | none => none
          | some b =>
            if updateFails then some (some updateFailedMsg, st)
            else
              some (some (updatedMsg r.sid (b.bprice * sale.sqty - d)),
                { st with sales := st.sales.map (fun s =>
                    if s.sid = r.sid then
                      { s with sdiscount := d,
                               stotal := b.bprice * sale.sqty - d }
                    else s) })

/-- Source `delete_sale_record(conn)`: same listing and choice prompt; the
chosen sid is deleted (`DELETE FROM sale WHERE sid=?`) in a transaction
(`deleteFails` models `sqlite3.Error`: the `except` branch rolls back). -/
def delete_sale_record (st : Store) (choice : String) (deleteFails : Bool) :
    Option String × Store :=
  if (listed_sales st).isEmpty then (some noSalesDeleteMsg, st)
  else
    match resolve_choice (listed_sales st) choice with
    | Choice.cancel => (none, st)
    | Choice.invalid => (some invalidNumberMsg, st)
    | Choice.chosen r =>
      if deleteFails then (some deleteFailedMsg, st)
      else
        (some (deletedMsg r.sid),
         { st with sales := st.sales.filter (fun s => ¬ s.sid = r.sid) })

/-- Row of the report query in `print_sale_report`:
`SELECT s.sid, s.sdate, m.mname, b.btitle, b.bprice, s.sqty, s.sdiscount,
s.stotal`. -/
structure ReportRow where
  sid : Nat
  sdate : String
  mname : String
  btitle : String
  bprice : Int
  sqty : Int
  sdiscount : Int
  stotal : Int
deriving DecidableEq

/-- One joined row of the report for a given sale, `none` when the inner
join on member or book finds no row. -/
def report_row (members : List Member) (books : List Book) (s : Sale) :
    Option ReportRow :=
  match members.find? (fun m => m.mid = s.mid),
      books.find? (fun b => b.bid = s.bid) with
  | some m, some b =>
    some ⟨s.sid, s.sdate, m.mname, b.btitle, b.bprice, s.sqty,
      s.sdiscount, s.stotal⟩
  | _, _ => none

/-- The report query of `print_sale_report`:
`sale JOIN member JOIN book ORDER BY s.sid`. -/
def sale_report (st : Store) : List ReportRow :=
  (st.sales.filterMap (report_row st.members st.books)).mergeSort
    (fun a b => a.sid ≤ b.sid)

/-- Source `print_sale_report(conn)`: runs the report query and prints the
rows; it issues no write, so it returns the rows and the store as-is. -/
def print_sale_report (st : Store) : List ReportRow × Store :=
  (sale_report st, st)

/-- Error kinds of the specification's taxonomy (its §7). -/
inductive ErrKind where
  | invalidInput
  | notFound
  | insufficientStock
  | storageFailure
deriving DecidableEq

/-- Modelled from the spec: the specification's §7 error taxonomy assigns a
kind to each error message the code can print — bad date format, bad
integer, and out-of-range menu/list selection are `InvalidInput`; the
unknown member/book message is `NotFound`; the stock-shortage message is
`InsufficientStock`; the three database-failure messages are
`StorageFailure`.  The code itself signals errors only as these strings. -/
def errKindOf (msg : String) : Option ErrKind :=
  if ("錯誤：書籍庫存不足").data.isPrefixOf msg.data then
    some ErrKind.insufficientStock
  else if msg = dateErrorMsg ∨ msg = invalidIntegerMsg ∨
      msg = invalidNumberMsg then some ErrKind.invalidInput
  else if msg = notFoundMsg then some ErrKind.notFound
  else if msg = dbErrorMsg ∨ msg = updateFailedMsg ∨
      msg = deleteFailedMsg then some ErrKind.storageFailure
  else none

/-! ## Helper lemmas -/

/-- A joined listing row carries the sid of the sale it came from. -/
lemma listed_row_sid {st : Store} {s : Sale} {x : ListedSale}
    (h : (st.members.find? (fun m => m.mid = s.mid)).map (fun m =>
      (⟨s.sid, m.mname, s.sdate⟩ : ListedSale)) = some x) : x.sid = s.sid := by
  rcases Option.map_eq_some'.1 h with ⟨m, _, hx⟩
  subst hx
  rfl

/-- A report row carries the sid of the sale it came from. -/
lemma report_row_sid {M : List Member} {B : List Book} {s : Sale}
    {r : ReportRow} (h : report_row M B s = some r) : r.sid = s.sid := by
  unfold report_row at h
  rcases hm : M.find? (fun m => m.mid = s.mid) with _ | m <;>
    rcases hb : B.find? (fun b => b.bid = s.bid) with _ | b <;>
      rw [hm, hb] at h <;> simp_all
  subst h
  rfl

/-- When the sales table is sorted by sid, the `ORDER BY s.sid` of the
choose-from-list query is the identity. -/
lemma listed_sales_of_sorted (st : Store)
    (h : st.sales.Pairwise (fun a b => a.sid < b.sid)) :
    listed_sales st = st.sales.filterMap (fun s =>
      (st.members.find? (fun m => m.mid = s.mid)).map (fun m =>
        ⟨s.sid, m.mname, s.sdate⟩)) := by
  rw [listed_sales]
  apply List.mergeSort_of_sorted
  rw [List.pairwise_filterMap]
  refine h.imp ?_
  intro a b hab x hx y hy
  simp only [Option.mem_def] at hx hy
  have hx' := listed_row_sid hx
  have hy' := listed_row_sid hy
  simp [hx', hy', Nat.le_of_lt hab]

/-- When the sales table is sorted by sid, the `ORDER BY s.sid` of the
report query is the identity. -/
lemma sale_report_of_sorted (st : Store)
    (h : st.sales.Pairwise (fun a b => a.sid < b.sid)) :
    sale_report st = st.sales.filterMap (report_row st.members st.books) := by
  rw [sale_report]
  apply List.mergeSort_of_sorted
  rw [List.pairwise_filterMap]
  refine h.imp ?_
  intro a b hab x hx y hy
  simp only [Option.mem_def] at hx hy
  have hx' := report_row_sid hx
  have hy' := report_row_sid hy
  simp [hx', hy', Nat.le_of_lt hab]

/-- Successful run of `add_sale`: member and book found, stock sufficient,
no database failure — the full postcondition of the committed transaction. -/
lemma add_sale_success_eq (st : Store) (sdate mid bid : String)
    (sqty sdiscount : Int) (m : Member) (b : Book)
    (hm : st.members.find? (fun x => x.mid = mid) = some m)
    (hb : st.books.find? (fun x => x.bid = bid) = some b)
    (hq : sqty ≤ b.bstock) :
    add_sale st sdate mid bid sqty sdiscount false false =
      ((true, addSaleOkMsg (b.bprice * sqty - sdiscount)),
       { st with
          books := st.books.map (fun bk =>
            if bk.bid = bid then { bk with bstock := bk.bstock - sqty }
            else bk),
          sales := st.sales ++
            [⟨st.nextSid, sdate, mid, bid, sqty, sdiscount,
              b.bprice * sqty - sdiscount⟩],
          nextSid := st.nextSid + 1 }) := by
  unfold add_sale
  rw [hm, hb]
  simp [Int.not_lt.mpr hq]

/-- Extending the longer list keeps a Boolean prefix check true. -/
lemma isPrefixOf_append_right {α : Type} [BEq α] {l1 l2 : List α}
    (t : List α) (h : l1.isPrefixOf l2 = true) :
    l1.isPrefixOf (l2 ++ t) = true := by
  induction l1 generalizing l2 with
  | nil => simp [List.isPrefixOf]
  | cons a as ih =>
    cases l2 with
    | nil => cases h
    | cons b bs =>
      simp only [List.isPrefixOf, List.cons_append, Bool.and_eq_true] at h ⊢
      exact ⟨h.1, ih h.2⟩

/-! ## C1 -/

/-- C1: a create-sale request with an existing member, an existing book,
and quantity at most the book's stock succeeds; the book's stock is
decremented by the quantity, the new sale row is appended with
`total = price*quantity - discount` (the discount is not compared with the
price, so the total may be negative and is stored as-is), and the members
table is untouched. -/
theorem C1_create_sale_success (st : Store) (sdate mid bid : String)
    (sqty sdiscount : Int) (m : Member) (b : Book)
    (hm : st.members.find? (fun x => x.mid = mid) = some m)
    (hb : st.books.find? (fun x => x.bid = bid) = some b)
    (hq : sqty ≤ b.bstock) :
    add_sale st sdate mid bid sqty sdiscount false false =
      ((true, addSaleOkMsg (b.bprice * sqty - sdiscount)),
       { st with
          books := st.books.map (fun bk =>
            if bk.bid = bid then { bk with bstock := bk.bstock - sqty }
            else bk),
          sales := st.sales ++
            [⟨st.nextSid, sdate, mid, bid, sqty, sdiscount,
              b.bprice * sqty - sdiscount⟩],
          nextSid := st.nextSid + 1 }) :=
  add_sale_success_eq st sdate mid bid sqty sdiscount m b hm hb hq

/-- Witness for C1 on the seeded store: buying one copy of B003 (price
1200, stock 20) with discount 2000 succeeds and stores the negative total
-800; the stock drops to 19. -/
theorem C1_witness :
    add_sale initialize_db ("2024-02-01") ("M001") ("B003") 1 2000 false
        false =
      ((true, addSaleOkMsg (1200 * 1 - 2000)),
       { initialize_db with
          books := initialize_db.books.map (fun bk =>
            if bk.bid = ("B003") then { bk with bstock := bk.bstock - 1 }
            else bk),
          sales := initialize_db.sales ++
            [⟨initialize_db.nextSid, "2024-02-01", "M001", "B003", 1, 2000,
              1200 * 1 - 2000⟩],
          nextSid := initialize_db.nextSid + 1 }) :=
  C1_create_sale_success initialize_db ("2024-02-01") ("M001") ("B003") 1
    2000 ⟨"M001", "Alice", "0912-345678", some ("alice@example.com")⟩
    ⟨"B003", "Machine Learning Guide", 1200, 20⟩ (by decide) (by decide)
    (by decide)

/-! ## C3 -/

/-- C3: a create-sale request with an existing member and book whose stock
is strictly below the requested quantity fails with the insufficient-stock
message, the message embeds the actual remaining stock, the spec taxonomy
classifies it as `InsufficientStock`, and the store is unchanged. -/
theorem C3_insufficient_stock (st : Store) (sdate mid bid : String)
    (sqty sdiscount : Int) (m : Member) (b : Book)
    (insertFails updateFails : Bool)
    (hm : st.members.find? (fun x => x.mid = mid) = some m)
    (hb : st.books.find? (fun x => x.bid = bid) = some b)
    (hq : b.bstock < sqty) :
    add_sale st sdate mid bid sqty sdiscount insertFails updateFails =
      ((false, insufficientStockMsg b.bstock), st)
    ∧ (∃ pre post,
        insufficientStockMsg b.bstock = pre ++ toString b.bstock ++ post)
    ∧ errKindOf (insufficientStockMsg b.bstock) =
        some ErrKind.insufficientStock := by
  refine ⟨?_, ⟨"錯誤：書籍庫存不足 (剩餘 ", ")", rfl⟩, ?_⟩
  · unfold add_sale
    rw [hm, hb]
    simp [hq]
  · have hpre : ("錯誤：書籍庫存不足").data.isPrefixOf
        (insufficientStockMsg b.bstock).data = true := by
      rw [insufficientStockMsg, String.data_append, String.data_append]
      exact isPrefixOf_append_right _ (isPrefixOf_append_right _
        (by decide))
    simp [errKindOf, hpre]

/-- Witness for C3 on the seeded store: asking for 21 copies of B003
(stock 20) fails, names the remaining 20, and changes nothing. -/
theorem C3_witness :
    add_sale initialize_db ("2024-02-01") ("M002") ("B003") 21 0 true
        false =
      ((false, insufficientStockMsg 20), initialize_db)
    ∧ (∃ pre post, insufficientStockMsg 20 = pre ++ toString (20 : Int) ++
        post)
    ∧ errKindOf (insufficientStockMsg 20) =
        some ErrKind.insufficientStock :=
  C3_insufficient_stock initialize_db ("2024-02-01") ("M002") ("B003") 21 0
    ⟨"M002", "Bob", "0923-456789", some ("bob@example.com")⟩
    ⟨"B003", "Machine Learning Guide", 1200, 20⟩ true false (by decide)
    (by decide) (by decide)

/-! ## C4 -/

/-- C4: a create-sale request whose member id or book id matches no row
fails with the not-found message (classified `NotFound` by the spec
taxonomy) and leaves the whole store unchanged. -/
theorem C4_not_found (st : Store) (sdate mid bid : String)
    (sqty sdiscount : Int) (insertFails updateFails : Bool)
    (h : st.members.find? (fun x => x.mid = mid) = none ∨
      st.books.find? (fun x => x.bid = bid) = none) :
    add_sale st sdate mid bid sqty sdiscount insertFails updateFails =
      ((false, notFoundMsg), st)
    ∧ errKindOf notFoundMsg = some ErrKind.notFound := by
  constructor
  · unfold add_sale
    split
    · rename_i hm1 hb1
      rcases h with h | h
      · rw [h] at hm1
        exact absurd hm1 (by simp)
      · rw [h] at hb1
        exact absurd hb1 (by simp)
    · rfl
  · decide

/-- Witness for C4 on the seeded store: an unknown member id M999 fails
with the not-found message and changes nothing. -/
theorem C4_witness :
    add_sale initialize_db ("2024-02-01") ("M999") ("B001") 1 0 false
        false = ((false, notFoundMsg), initialize_db)
    ∧ errKindOf notFoundMsg = some ErrKind.notFound :=
  C4_not_found initialize_db ("2024-02-01") ("M999") ("B001") 1 0 false
    false (Or.inl (by decide))

/-! ## C2 -/

/-- Every run of `add_sale` either reports failure and leaves the store
untouched, or succeeds and equals the failure-free run (both writes). -/
lemma add_sale_atomic (st : Store) (sdate mid bid : String)
    (sqty sdiscount : Int) (i u : Bool) :
    ((add_sale st sdate mid bid sqty sdiscount i u).1.1 = false ∧
      (add_sale st sdate mid bid sqty sdiscount i u).2 = st)
    ∨ ((add_sale st sdate mid bid sqty sdiscount i u).1.1 = true ∧
      add_sale st sdate mid bid sqty sdiscount i u =
        add_sale st sdate mid bid sqty sdiscount false false) := by
  unfold add_sale
  split
  · split
    · exact Or.inl ⟨rfl, rfl⟩
    · cases i
      · cases u
        · exact Or.inr ⟨rfl, rfl⟩
        · exact Or.inl ⟨rfl, rfl⟩
      · exact Or.inl ⟨rfl, rfl⟩
  · exact Or.inl ⟨rfl, rfl⟩

/-- Every non-crashing run of `update_sale_record` either leaves the store
untouched or equals the failure-free run. -/
lemma update_sale_record_atomic (st : Store) (c : String) (nd : Option Int)
    (u : Bool) (out : Option String × Store)
    (h : update_sale_record st c nd u = some out) :
    out.2 = st ∨ update_sale_record st c nd false = some out := by
  cases u
  · exact Or.inr h
  · left
    unfold update_sale_record at h
    repeat' split at h
    all_goals first
      | (cases h; first | rfl | simp_all)
      | simp_all

/-- Every run of `delete_sale_record` either leaves the store untouched or
equals the failure-free run. -/
lemma delete_sale_record_atomic (st : Store) (c : String) (f : Bool) :
    (delete_sale_record st c f).2 = st ∨
      delete_sale_record st c f = delete_sale_record st c false := by
  cases f
  · exact Or.inr rfl
  · left
    unfold delete_sale_record
    split
    · rfl
    · split <;> rfl

/-- C2: every mutating operation is atomic.  Whatever the write-failure
flags, a create-sale run either reports failure with the store exactly as
before (the rollback undoes any partial write), or succeeds and coincides
with the failure-free run in which both the sale insertion and the stock
decrement took effect; a discount update or sale deletion likewise either
leaves the store untouched or equals its failure-free run.  No partial
state is ever the result. -/
theorem C2_mutations_atomic :
    (∀ (st : Store) (sdate mid bid : String) (sqty sdiscount : Int)
        (i u : Bool),
      ((add_sale st sdate mid bid sqty sdiscount i u).1.1 = false ∧
        (add_sale st sdate mid bid sqty sdiscount i u).2 = st)
      ∨ ((add_sale st sdate mid bid sqty sdiscount i u).1.1 = true ∧
        add_sale st sdate mid bid sqty sdiscount i u =
          add_sale st sdate mid bid sqty sdiscount false false))
    ∧ (∀ (st : Store) (c : String) (nd : Option Int) (u : Bool)
        (out : Option String × Store),
      update_sale_record st c nd u = some out →
        out.2 = st ∨ update_sale_record st c nd false = some out)
    ∧ (∀ (st : Store) (c : String) (f : Bool),
      (delete_sale_record st c f).2 = st ∨
        delete_sale_record st c f = delete_sale_record st c false) :=
  ⟨add_sale_atomic, update_sale_record_atomic, delete_sale_record_atomic⟩

/-- Witness for C2: on an empty store, an update request under a failing
write still returns the no-records message with the store unchanged, and
the conclusion of the atomicity theorem holds at that concrete run. -/
theorem C2_witness :
    update_sale_record (⟨[], [], [], 1⟩ : Store) ("1") (some 0) true =
      some (some noSalesUpdateMsg, (⟨[], [], [], 1⟩ : Store))
    ∧ ((some noSalesUpdateMsg, (⟨[], [], [], 1⟩ : Store)).2 =
        (⟨[], [], [], 1⟩ : Store)
      ∨ update_sale_record (⟨[], [], [], 1⟩ : Store) ("1") (some 0) false =
        some (some noSalesUpdateMsg, (⟨[], [], [], 1⟩ : Store))) := by
  have h1 : update_sale_record (⟨[], [], [], 1⟩ : Store) ("1") (some 0)
      true = some (some noSalesUpdateMsg, (⟨[], [], [], 1⟩ : Store)) := by
    have hl : listed_sales (⟨[], [], [], 1⟩ : Store) = [] := by
      rw [listed_sales_of_sorted _ (by decide)]
      rfl
    simp [update_sale_record, hl]
  exact ⟨h1, C2_mutations_atomic.2.1 _ _ _ true _ h1⟩

/-! ## C5, C6, C7 -/

/-- A chosen row of the list prompt is one of the listed rows. -/
lemma resolve_choice_chosen_mem {L : List ListedSale} {c : String}
    {r : ListedSale} (h : resolve_choice L c = Choice.chosen r) : r ∈ L := by
  unfold resolve_choice at h
  split at h
  · cases h
  · split at h
    · cases h
    · split at h
      · cases h
      · split at h
        · cases h
          exact List.get_mem _ _ _
        · cases h

/-- A chosen row never comes from an empty listing. -/
lemma resolve_choice_chosen_not_empty {L : List ListedSale} {c : String}
    {r : ListedSale} (h : resolve_choice L c = Choice.chosen r) :
    L.isEmpty = false := by
  cases hL : L
  · rw [hL] at h
    exact absurd (resolve_choice_chosen_mem h) (by simp)
  · rfl

/-- A listed row's sid belongs to some sale row of the store. -/
lemma exists_sale_of_listed {st : Store} {r : ListedSale}
    (h : r ∈ listed_sales st) : ∃ s ∈ st.sales, s.sid = r.sid := by
  rw [listed_sales, List.mem_mergeSort] at h
  rcases List.mem_filterMap.1 h with ⟨s, hs, hmap⟩
  exact ⟨s, hs, (listed_row_sid hmap).symm⟩

/-- C5: choosing an existing sale and a new discount `d ≥ 0`, the update
stores `d` and the total recomputed from the book's current price times
the sale's original quantity minus `d`; all other fields of the sale, all
sales with a different sid, the members and books tables, and the
autoincrement counter are unchanged. -/
theorem C5_update_discount (st : Store) (choice : String) (d : Int)
    (r : ListedSale) (sale : Sale) (b : Book) (hd : 0 ≤ d)
    (hc : resolve_choice (listed_sales st) choice = Choice.chosen r)
    (hs : st.sales.find? (fun s => s.sid = r.sid) = some sale)
    (hb : st.books.find? (fun x => x.bid = sale.bid) = some b) :
    update_sale_record st choice (some d) false =
      some (some (updatedMsg r.sid (b.bprice * sale.sqty - d)),
        { st with sales := st.sales.map (fun s =>
            if s.sid = r.sid then
              { s with sdiscount := d, stotal := b.bprice * sale.sqty - d }
            else s) })
    ∧ (∀ s ∈ st.sales, s.sid ≠ r.sid →
        s ∈ (st.sales.map (fun s => if s.sid = r.sid then
          { s with sdiscount := d, stotal := b.bprice * sale.sqty - d }
          else s)))
    ∧ ({ sale with sdiscount := d, stotal := b.bprice * sale.sqty - d } ∈
        (st.sales.map (fun s => if s.sid = r.sid then
          { s with sdiscount := d, stotal := b.bprice * sale.sqty - d }
          else s))) := by
  refine ⟨?_, ?_, ?_⟩
  · unfold update_sale_record
    rw [resolve_choice_chosen_not_empty hc, hc]
    simp only [hs, hb]
    rfl
  · intro s hsmem hsid
    exact List.mem_map.2 ⟨s, hsmem, by simp [hsid]⟩
  · refine List.mem_map.2 ⟨sale, List.mem_of_find?_eq_some hs, ?_⟩
    have h1 := List.find?_some hs
    simp only [decide_eq_true_eq] at h1
    simp [h1]

/-- Witness for C5 on the seeded store: choosing list entry 1 (sale 1,
book B001, quantity 2, old discount 100) with new discount 0 stores
discount 0 and total 600*2-0 = 1200, touching nothing else. -/
theorem C5_witness :
    update_sale_record initialize_db ("1") (some 0) false =
      some (some (updatedMsg 1 (600 * 2 - 0)),
        { initialize_db with sales := initialize_db.sales.map (fun s =>
            if s.sid = 1 then
              { s with sdiscount := 0, stotal := 600 * 2 - 0 }
            else s) }) := by
  have hl : listed_sales initialize_db =
      [⟨1, "Alice", "2024-01-15"⟩, ⟨2, "Bob", "2024-01-16"⟩,
       ⟨3, "Alice", "2024-01-17"⟩, ⟨4, "Cathy", "2024-01-18"⟩,
       ⟨5, "Bob", "2024-01-19"⟩] := by
    rw [listed_sales_of_sorted _ (by decide)]
    decide
  exact (C5_update_discount initialize_db ("1") 0
    ⟨1, "Alice", "2024-01-15"⟩ ⟨1, "2024-01-15", "M001", "B001", 2, 100,
      1100⟩ ⟨"B001", "Python Programming", 600, 50⟩ (by decide)
    (by rw [hl]; decide) (by decide) (by decide)).1

/-- Counterexample to C6 as stated: on the seeded store (sales 1..5), the
only way to aim an update at a sale that does not exist is an out-of-range
list selection (here entry 9); the code then reports the invalid-number
message — classified `InvalidInput` by the spec's own taxonomy, not
`NotFound` — though the storage is indeed left unchanged. -/
theorem C6_counterexample :
    update_sale_record initialize_db ("9") (some 0) false =
      some (some invalidNumberMsg, initialize_db)
    ∧ errKindOf invalidNumberMsg ≠ some ErrKind.notFound := by
  constructor
  · have hl : listed_sales initialize_db =
        [⟨1, "Alice", "2024-01-15"⟩, ⟨2, "Bob", "2024-01-16"⟩,
         ⟨3, "Alice", "2024-01-17"⟩, ⟨4, "Cathy", "2024-01-18"⟩,
         ⟨5, "Bob", "2024-01-19"⟩] := by
      rw [listed_sales_of_sorted _ (by decide)]
      decide
    unfold update_sale_record
    rw [hl]
    decide
  · decide

/-- C6 amended: a discount-update request that designates no existing sale
— an out-of-range or non-numeric list selection, the only way the code can
be asked about a nonexistent sale — fails with the invalid-number message
(`InvalidInput` in the spec taxonomy, not `NotFound`) and leaves all
storage unchanged; when no sale exists at all, the no-records message is
reported and storage is likewise unchanged. -/
theorem C6_unknown_sale_invalid_input (st : Store) (choice : String)
    (nd : Option Int) (u : Bool) :
    (resolve_choice (listed_sales st) choice = Choice.invalid →
      (listed_sales st).isEmpty = false →
      update_sale_record st choice nd u =
        some (some invalidNumberMsg, st))
    ∧ ((listed_sales st).isEmpty = true →
      update_sale_record st choice nd u =
        some (some noSalesUpdateMsg, st))
    ∧ errKindOf invalidNumberMsg = some ErrKind.invalidInput := by
  refine ⟨?_, ?_, by decide⟩
  · intro hc hne
    unfold update_sale_record
    rw [hne, hc]
    rfl
  · intro he
    unfold update_sale_record
    rw [he]
    rfl

/-- Witness for the amended C6 on the seeded store: list entry 9 does not
exist, the result is the invalid-number message and an unchanged store. -/
theorem C6_witness :
    update_sale_record initialize_db ("9") (some 0) false =
      some (some invalidNumberMsg, initialize_db)
    ∧ errKindOf invalidNumberMsg = some ErrKind.invalidInput := by
  have hl : listed_sales initialize_db =
      [⟨1, "Alice", "2024-01-15"⟩, ⟨2, "Bob", "2024-01-16"⟩,
       ⟨3, "Alice", "2024-01-17"⟩, ⟨4, "Cathy", "2024-01-18"⟩,
       ⟨5, "Bob", "2024-01-19"⟩] := by
    rw [listed_sales_of_sorted _ (by decide)]
    decide
  exact ⟨(C6_unknown_sale_invalid_input initialize_db ("9") (some 0)
      false).1 (by rw [hl]; decide) (by rw [hl]; decide),
    (C6_unknown_sale_invalid_input initialize_db ("9") (some 0)
      false).2.2⟩

/-- Dropping the rows with a given sid from a sid-sorted sales list whose
sids include it removes exactly one row. -/
lemma length_filter_ne_sid {l : List Sale} {sid : Nat}
    (hnd : l.Pairwise (fun a b => a.sid < b.sid))
    (hex : ∃ s ∈ l, s.sid = sid) :
    (l.filter (fun s => ¬ s.sid = sid)).length + 1 = l.length := by
  induction l with
  | nil =>
    rcases hex with ⟨s, hs, _⟩
    cases hs
  | cons a t ih =>
    rw [List.pairwise_cons] at hnd
    rcases hex with ⟨s, hs, hsid⟩
    rcases List.mem_cons.1 hs with rfl | hs2
    · rw [List.filter_cons, if_neg (by simp [hsid])]
      rw [List.filter_eq_self.mpr (fun x hx => by
        simp only [decide_eq_true_eq]
        exact fun hx2 => absurd (hx2 ▸ hsid ▸ hnd.1 x hx) (lt_irrefl _))]
      rfl
    · have ha : ¬ a.sid = sid := by
        intro hab
        exact absurd (hsid ▸ hab ▸ hnd.1 s hs2) (lt_irrefl _)
      rw [List.filter_cons, if_pos (by simp [ha])]
      have := ih hnd.2 ⟨s, hs2, hsid⟩
      simp only [List.length_cons]
      omega

/-- C7: deleting a chosen (hence existing) sale removes exactly the rows
with that sid — exactly one row when sids are unique, as the primary key
guarantees — and leaves every other sale, the members table, the books
table (so no stock is restored), and the autoincrement counter untouched. -/
theorem C7_delete_sale (st : Store) (choice : String) (r : ListedSale)
    (hsorted : st.sales.Pairwise (fun a b => a.sid < b.sid))
    (hc : resolve_choice (listed_sales st) choice = Choice.chosen r) :
    delete_sale_record st choice false =
      (some (deletedMsg r.sid),
       { st with sales := st.sales.filter (fun s => ¬ s.sid = r.sid) })
    ∧ (∀ s ∈ st.sales, s.sid ≠ r.sid →
        s ∈ st.sales.filter (fun s => ¬ s.sid = r.sid))
    ∧ (∀ s ∈ st.sales.filter (fun s => ¬ s.sid = r.sid),
        s ∈ st.sales ∧ s.sid ≠ r.sid)
    ∧ (st.sales.filter (fun s => ¬ s.sid = r.sid)).length + 1 =
        st.sales.length := by
  refine ⟨?_, ?_, ?_, ?_⟩
  · unfold delete_sale_record
    rw [resolve_choice_chosen_not_empty hc, hc]
    rfl
  · intro s hsmem hsid
    rw [List.mem_filter]
    exact ⟨hsmem, by simp [hsid]⟩
  · intro s hsmem
    rw [List.mem_filter] at hsmem
    refine ⟨hsmem.1, ?_⟩
    have := hsmem.2
    simp only [decide_eq_true_eq] at this
    exact this
  · exact length_filter_ne_sid hsorted
      (exists_sale_of_listed (resolve_choice_chosen_mem hc))

/-- Witness for C7 on the seeded store: deleting list entry 2 (sale 2)
removes exactly that row; books — including B002's stock — members, and
the counter are untouched. -/
theorem C7_witness :
    delete_sale_record initialize_db ("2") false =
      (some (deletedMsg 2),
       { initialize_db with
          sales := initialize_db.sales.filter (fun s => ¬ s.sid = 2) })
    ∧ (initialize_db.sales.filter (fun s => ¬ s.sid = 2)).length + 1 =
        initialize_db.sales.length := by
  have hl : listed_sales initialize_db =
      [⟨1, "Alice", "2024-01-15"⟩, ⟨2, "Bob", "2024-01-16"⟩,
       ⟨3, "Alice", "2024-01-17"⟩, ⟨4, "Cathy", "2024-01-18"⟩,
       ⟨5, "Bob", "2024-01-19"⟩] := by
    rw [listed_sales_of_sorted _ (by decide)]
    decide
  have h := C7_delete_sale initialize_db ("2") ⟨2, "Bob", "2024-01-16"⟩
    (by decide) (by rw [hl]; decide)
  exact ⟨h.1, h.2.2.2⟩

/-! ## C8 -/

/-- The stock decrement of `add_sale` changes no book field the report
reads, so each report row is unaffected by it. -/
lemma report_row_stockmap (M : List Member) (B : List Book) (bid : String)
    (q : Int) :
    report_row M (B.map (fun bk =>
      if bk.bid = bid then { bk with bstock := bk.bstock - q } else bk))
      = report_row M B := by
  funext s
  have hcomp : ((fun b : Book => decide (b.bid = s.bid)) ∘ (fun bk : Book =>
      if bk.bid = bid then { bk with bstock := bk.bstock - q } else bk)) =
      (fun b : Book => decide (b.bid = s.bid)) := by
    funext bk
    by_cases h : bk.bid = bid <;> simp [h, Function.comp]
  unfold report_row
  rw [List.find?_map, hcomp]
  cases hM : M.find? (fun m => m.mid = s.mid) with
  | none =>
    cases hB : B.find? (fun b => b.bid = s.bid) with
    | none => rfl
    | some bb => rfl
  | some mm =>
    cases hB : B.find? (fun b => b.bid = s.bid) with
    | none => rfl
    | some bb =>
      by_cases h : bb.bid = bid <;> simp [h]

/-- C8: the sale listing is a pure read of the store; it is empty on an
empty sales table; its rows are ordered by ascending sale identifier; and
after a successful create-sale the listing is the old listing plus one new
final row joining the member's name and the book's title and price. -/
theorem C8_sale_report :
    (∀ st : Store, print_sale_report st = (sale_report st, st))
    ∧ (∀ st : Store, st.sales = [] → sale_report st = [])
    ∧ (∀ st : Store, (sale_report st).Pairwise (fun a b => a.sid ≤ b.sid))
    ∧ (∀ (st : Store) (sdate mid bid : String) (q d : Int) (m : Member)
        (b : Book),
        st.sales.Pairwise (fun a b2 => a.sid < b2.sid) →
        (∀ s ∈ st.sales, s.sid < st.nextSid) →
        st.members.find? (fun x => x.mid = mid) = some m →
        st.books.find? (fun x => x.bid = bid) = some b →
        q ≤ b.bstock →
        sale_report (add_sale st sdate mid bid q d false false).2 =
          sale_report st ++
            [⟨st.nextSid, sdate, m.mname, b.btitle, b.bprice, q, d,
              b.bprice * q - d⟩]) := by
  refine ⟨fun st => rfl, ?_, ?_, ?_⟩
  · intro st h
    rw [sale_report, h, List.filterMap_nil, List.mergeSort_nil]
  · intro st
    rw [sale_report]
    refine (List.sorted_mergeSort ?_ ?_
      (st.sales.filterMap (report_row st.members st.books))).imp ?_
    · intro a b c hab hbc
      simp only [decide_eq_true_eq] at *
      omega
    · intro a b
      rcases Nat.le_total a.sid b.sid with h | h <;> simp [h]
    · intro a b h
      simpa using h
  · intro st sdate mid bid q d m b hsorted hlt hm hb hq
    rw [add_sale_success_eq st sdate mid bid q d m b hm hb hq]
    have hsorted2 : (st.sales ++ [(⟨st.nextSid, sdate, mid, bid, q, d,
        b.bprice * q - d⟩ : Sale)]).Pairwise
        (fun a b2 => a.sid < b2.sid) := by
      rw [List.pairwise_append]
      refine ⟨hsorted, List.pairwise_singleton _ _, ?_⟩
      intro x hx y hy
      rw [List.mem_singleton] at hy
      subst hy
      exact hlt x hx
    rw [sale_report_of_sorted _ hsorted2, sale_report_of_sorted st hsorted]
    rw [List.filterMap_append]
    simp only [report_row_stockmap, List.filterMap_cons, List.filterMap_nil]
    simp [report_row, hm, hb]

/-- Witness for C8 on the seeded store: creating a sale of 3 copies of
B002 for member M003 appends exactly one row, joined as Cathy / Data
Science Basics / 800, at the end of the report. -/
theorem C8_witness :
    sale_report (add_sale initialize_db ("2024-02-02") ("M003") ("B002") 3
        100 false false).2 =
      sale_report initialize_db ++
        [⟨6, "2024-02-02", "Cathy", "Data Science Basics", 800, 3, 100,
          800 * 3 - 100⟩] :=
  C8_sale_report.2.2.2 initialize_db ("2024-02-02") ("M003") ("B002") 3 100
    ⟨"M003", "Cathy", "0934-567890", some ("cathy@example.com")⟩
    ⟨"B002", "Data Science Basics", 800, 30⟩ (by decide) (by decide)
    (by decide) (by decide) (by decide)

/-! ## C9 -/

/-- With unique bids (the `book` primary key), every list member carrying
the looked-up bid is the row `find?` returned. -/
lemma mem_key_unique {l : List Book} {b bk : Book} {bid : String}
    (hnd : (l.map (fun x => x.bid)).Nodup)
    (hf : l.find? (fun x => x.bid = bid) = some b)
    (hbk : bk ∈ l) (hbid : bk.bid = bid) : bk = b := by
  induction l with
  | nil => cases hbk
  | cons a t ih =>
    rw [List.map_cons, List.nodup_cons] at hnd
    rw [List.find?_cons] at hf
    rcases List.mem_cons.1 hbk with rfl | hmem
    · rw [show (decide (bk.bid = bid)) = true by simp [hbid]] at hf
      cases hf
      rfl
    · by_cases ha : a.bid = bid
      · exact absurd (List.mem_map.2 ⟨bk, hmem, (hbid.trans ha.symm)⟩)
          hnd.1
      · rw [show (decide (a.bid = bid)) = false by simp [ha]] at hf
        exact ih hnd.2 hf hmem

/-- A discount update never touches the books table. -/
lemma update_sale_record_books (st : Store) (c : String) (nd : Option Int)
    (u : Bool) (out : Option String × Store)
    (h : update_sale_record st c nd u = some out) :
    out.2.books = st.books := by
  unfold update_sale_record at h
  repeat' split at h
  all_goals first
    | (cases h; rfl)
    | simp_all

/-- A sale deletion never touches the books table. -/
lemma delete_sale_record_books (st : Store) (c : String) (f : Bool) :
    (delete_sale_record st c f).2.books = st.books := by
  unfold delete_sale_record
  split
  · rfl
  · split <;> first | rfl | (split <;> rfl)

/-- C9: starting from any store whose books all have non-negative stock
(and whose bids are unique, as the primary key guarantees), every
create-sale run — successful or failed — every discount update, and every
sale deletion leaves every book's stock non-negative. -/
theorem C9_stock_nonneg (st : Store)
    (hkeys : (st.books.map (fun x => x.bid)).Nodup)
    (h0 : ∀ b ∈ st.books, 0 ≤ b.bstock) :
    (∀ (sdate mid bid : String) (q d : Int) (i u : Bool),
      ∀ b2 ∈ (add_sale st sdate mid bid q d i u).2.books, 0 ≤ b2.bstock)
    ∧ (∀ (c : String) (nd : Option Int) (u : Bool)
        (out : Option String × Store),
      update_sale_record st c nd u = some out →
        ∀ b2 ∈ out.2.books, 0 ≤ b2.bstock)
    ∧ (∀ (c : String) (f : Bool),
      ∀ b2 ∈ (delete_sale_record st c f).2.books, 0 ≤ b2.bstock) := by
  refine ⟨?_, ?_, ?_⟩
  · intro sdate mid bid q d i u b2 hmem
    revert hmem
    unfold add_sale
    split
    · rename_i hm1 hb1
      split
      · exact fun hmem => h0 b2 hmem
      · cases i
        · cases u
          · intro hmem
            rcases List.mem_map.1 hmem with ⟨bk, hbk, rfl⟩
            by_cases hbid : bk.bid = bid
            · rename_i b hstock
              have hbb : bk = b := mem_key_unique hkeys hb1 hbk hbid
              subst hbb
              rw [if_pos hbid]
              simp only []
              have h1 := h0 bk hbk
              rw [Int.not_lt] at hstock
              simp [Int.sub_nonneg.2 hstock]
            · rw [if_neg hbid]
              exact h0 bk hbk
          · exact fun hmem => h0 b2 hmem
        · exact fun hmem => h0 b2 hmem
    · exact fun hmem => h0 b2 hmem
  · intro c nd u out hout b2 hmem
    rw [update_sale_record_books st c nd u out hout] at hmem
    exact h0 b2 hmem
  · intro c f b2 hmem
    rw [delete_sale_record_books st c f] at hmem
    exact h0 b2 hmem

/-- Witness for C9: the seeded store has unique bids and non-negative
stocks; after selling 2 copies of B001 its row, now at stock 48, is among
the result books and its stock is non-negative. -/
theorem C9_witness :
    0 ≤ (⟨"B001", "Python Programming", 600, 48⟩ : Book).bstock :=
  (C9_stock_nonneg initialize_db (by decide) (by decide)).1
    ("2024-02-01") ("M001") ("B001") 2 0 false false
    ⟨"B001", "Python Programming", 600, 48⟩ (by decide)

/-! ## C10 -/

/-- After the stock decrement of `add_sale`, looking the book up again
yields the same row with its stock reduced by the sold quantity. -/
lemma find?_books_stockmap {B : List Book} {b : Book} {bid : String}
    (q : Int) (hb : B.find? (fun x => x.bid = bid) = some b) :
    (B.map (fun bk =>
      if bk.bid = bid then { bk with bstock := bk.bstock - q } else bk)).find?
      (fun x => x.bid = bid) = some { b with bstock := b.bstock - q } := by
  have hcomp : ((fun x : Book => decide (x.bid = bid)) ∘ (fun bk : Book =>
      if bk.bid = bid then { bk with bstock := bk.bstock - q } else bk)) =
      (fun x : Book => decide (x.bid = bid)) := by
    funext bk
    by_cases h : bk.bid = bid <;> simp [h, Function.comp]
  rw [List.find?_map, hcomp, hb]
  have h1 := List.find?_some hb
  simp only [decide_eq_true_eq] at h1
  simp [h1]

/-- C10 (implicit): `add_sale` itself performs no quantity-positivity and
no date-format validation — with an existing member and book and any
integer quantity at most the stock (zero and negative included) and any
date string, it succeeds, appends the sale row, and sets the book's stock
to `old - quantity`, which strictly increases the stock when the quantity
is negative.  The date check lives only in `add_new_sale`, which rejects a
malformed date before touching the store, and the positivity check lives
only in the interactive input loop, which hands back an integer exactly
when it is positive. -/
theorem C10_no_store_level_validation :
    (∀ (st : Store) (sdate mid bid : String) (q d : Int) (m : Member)
        (b : Book),
      st.members.find? (fun x => x.mid = mid) = some m →
      st.books.find? (fun x => x.bid = bid) = some b →
      q ≤ b.bstock →
      (add_sale st sdate mid bid q d false false).1.1 = true
      ∧ (add_sale st sdate mid bid q d false false).2.sales =
          st.sales ++
            [⟨st.nextSid, sdate, mid, bid, q, d, b.bprice * q - d⟩]
      ∧ (add_sale st sdate mid bid q d false false).2.books.find?
          (fun x => x.bid = bid) = some { b with bstock := b.bstock - q }
      ∧ (q < 0 → b.bstock < b.bstock - q))
    ∧ (∀ (st : Store) (sdate mid bid : String) (sqty sdiscount : Option Int)
        (i u : Bool),
      is_valid_date sdate = false →
      add_new_sale st sdate mid bid sqty sdiscount i u =
        (some dateErrorMsg, st))
    ∧ (∀ q : Int, positive_input_ok (some q) = true ↔ 0 < q) := by
  refine ⟨?_, ?_, ?_⟩
  · intro st sdate mid bid q d m b hm hb hq
    rw [add_sale_success_eq st sdate mid bid q d m b hm hb hq]
    refine ⟨rfl, rfl, find?_books_stockmap q hb, ?_⟩
    intro hneg
    omega
  · intro st sdate mid bid sqty sdiscount i u h
    unfold add_new_sale
    rw [h]
    rfl
  · intro q
    simp [positive_input_ok]

/-- Witness for C10 on the seeded store: a quantity of -2 with the
malformed date string is accepted by `add_sale` and raises B001's stock
from 50 to 52, while `add_new_sale` rejects the same date up front. -/
theorem C10_witness :
    ((add_sale initialize_db ("not-a-date") ("M001") ("B001") (-2) 0 false
        false).1.1 = true
      ∧ (add_sale initialize_db ("not-a-date") ("M001") ("B001") (-2) 0
          false false).2.sales =
          initialize_db.sales ++
            [⟨initialize_db.nextSid, "not-a-date", "M001", "B001", -2, 0,
              600 * (-2) - 0⟩]
      ∧ (add_sale initialize_db ("not-a-date") ("M001") ("B001") (-2) 0
          false false).2.books.find? (fun x => x.bid = ("B001")) =
          some ⟨"B001", "Python Programming", 600, 50 - (-2)⟩
      ∧ ((-2 : Int) < 0 → (50 : Int) < 50 - (-2)))
    ∧ add_new_sale initialize_db ("not-a-date") ("M001") ("B001") (some 5)
        (some 0) false false = (some dateErrorMsg, initialize_db) :=
  ⟨C10_no_store_level_validation.1 initialize_db ("not-a-date") ("M001")
      ("B001") (-2) 0
      ⟨"M001", "Alice", "0912-345678", some ("alice@example.com")⟩
      ⟨"B001", "Python Programming", 600, 50⟩ (by decide) (by decide)
      (by decide),
    C10_no_store_level_validation.2.1 initialize_db ("not-a-date") ("M001")
      ("B001") (some 5) (some 0) false false (by decide)⟩

end Bookstore
